import Mathlib

set_option maxRecDepth 10000

/-!
Verification of the Shyampari Edutech chatbot service (`src/main.py`): a
shallow embedding of the fallback responder, the remote completion client
and the `/chat` request handler, together with theorems about the
keyword-cascade response selection and the handler's error behaviour.
-/

namespace Edubot

/-- Python `str.lower()` restricted to the ASCII range, as `message.lower()`
at src/main.py line 216 (all keywords and inputs of interest are ASCII). -/
def pyLower (s : String) : String :=
  String.mk (s.toList.map Char.toLower)

/-- `listStarts n h` is true when the character list `n` is an initial
segment of `h`. -/
def listStarts : List Char → List Char → Bool
  | [], _ => true
  | _ :: _, [] => false
  | n :: ns, h :: hs => (n = h) && listStarts ns hs

/-- `containsList n h` is true when `n` occurs contiguously inside `h`. -/
def containsList (needle : List Char) : List Char → Bool
  | [] => listStarts needle []
  | h :: hs => listStarts needle (h :: hs) || containsList needle hs

/-- Python substring containment `needle in haystack` (src/main.py lines
219, 223, 242, ...: `word in message_lower`). -/
def containsSub (needle haystack : String) : Bool :=
  containsList needle.toList haystack.toList

/-- The whitespace characters removed by Python `str.strip()`. -/
def isPySpace (c : Char) : Bool :=
  c = ' ' || c = '\t' || c = '\n' || c = '\r' || c = '\x0b' || c = '\x0c'

/-- Python `str.strip()`, as `chat_message.message.strip()` at src/main.py
line 386 and `.strip()` on the completion text at line 196. -/
def pyStrip (s : String) : String :=
  String.mk (((s.toList.dropWhile isPySpace).reverse.dropWhile isPySpace).reverse)

/-- `any(word in message_lower for word in words)` (src/main.py lines
219, 223, 242, 257, 272, 284, 304, 320, 336, 350). -/
def anyKeyword (words : List String) (message_lower : String) : Bool :=
  words.any (fun w => containsSub w message_lower)

/-- Keyword list of the greeting branch, src/main.py line 219. -/
def greetingWords : List String :=
  ["hello", "hi", "hey", "namaste", "good morning", "good evening", "good afternoon"]

/-- Phrase list of the services branch, src/main.py line 223. -/
def servicePhrases : List String :=
  ["service", "what do you offer", "what you provide", "tell me about"]

/-- Keyword list of the demo/trial branch, src/main.py line 242. -/
def demoWords : List String :=
  ["demo", "trial", "test", "sample", "try"]

/-- Keyword list of the fee/pricing branch, src/main.py line 257. -/
def feeWords : List String :=
  ["fee", "cost", "price", "charge", "expensive", "affordable", "money"]

/-- Keyword list of the board/curriculum branch, src/main.py line 272. -/
def boardWords : List String :=
  ["board", "curriculum", "syllabus", "icse", "igcse", "cbse", "ib", "a-level"]

/-- Keyword list of the tutor/teacher branch, src/main.py line 284. -/
def tutorWords : List String :=
  ["tutor", "teacher", "educator", "faculty", "instructor"]

/-- Keyword list of the contact branch, src/main.py line 304. -/
def contactWords : List String :=
  ["contact", "reach", "call", "phone", "address", "location"]

/-- Keyword list of the timing/schedule branch, src/main.py line 320. -/
def timingWords : List String :=
  ["time", "timing", "schedule", "when", "available", "hours"]

/-- Keyword list of the location branch, src/main.py line 336. -/
def locationWords : List String :=
  ["where", "location", "pune", "maharashtra", "area", "nearby"]

/-- Keyword list of the affirmation branch, src/main.py line 350. -/
def affirmWords : List String :=
  ["really", "sure", "certain", "true", "confirm"]

/-- Fixed response block returned at src/main.py line 220. -/
def greetingResponse : String :=
  "Hello! ğŸ‘‹ Welcome to Shyampari Edutech. I\x27m here to help you learn about our premium tutoring services for ICSE, IGCSE, CBSE, IB, and A-Level boards. What would you like to know?"

/-- Fixed response block returned at src/main.py line 224. -/
def serviceResponse : String :=
  "We offer comprehensive tutoring services:\n\nğŸ¯ **Personalized Learning:**\nâ€¢ One-on-one tutoring with qualified educators\nâ€¢ Small group classes (3-5 students)\nâ€¢ Assessment-based customized learning plans\n\nğŸ“š **Boards Supported:** ICSE, IGCSE, CBSE, IB, A-Level\n\nğŸŒŸ **Key Features:**\nâ€¢ 24/7 coordinator support\nâ€¢ Monthly progress reports  \nâ€¢ Demo classes available (â‚¹500)\nâ€¢ Tutor replacement guarantee within 2 weeks\n\nWould you like to know about our demo process or fee structure?"

/-- Fixed response block returned at src/main.py line 243. -/
def demoResponse : String :=
  "ğŸ“ **Demo Class Process:**\n\n1ï¸âƒ£ Initial coordinator call to discuss your needs\n2ï¸âƒ£ WhatsApp communication and location sharing\n3ï¸âƒ£ Demo registration with â‚¹500 fee (negotiable)\n4ï¸âƒ£ Teacher profile shared within 2-3 days\n5ï¸âƒ£ 20-30 minute demo class\n6ï¸âƒ£ Feedback collection and teacher finalization\n\nDemo fee: **â‚¹500** (subject to negotiation)\n\nReady to book a demo? Contact our coordinator at contact@shyampariedutech.com"

/-- Fixed response block returned at src/main.py line 258. -/
def feeResponse : String :=
  "ğŸ’° **Fee Structure:**\n\nâ€¢ **Demo fee:** â‚¹500 (negotiable)\nâ€¢ **Payment packages:** 1, 3, or 6 months\nâ€¢ **Pricing varies** based on:\n  - Subject and grade level\n  - Tutoring mode (online/offline)\n  - Individual or group sessions\n\nFor detailed fee structure tailored to your requirements, please contact:\nğŸ“§ contact@shyampariedutech.com\nğŸŒ https://www.shyampariedutech.com"

/-- Fixed response block returned at src/main.py line 273. -/
def boardResponse : String :=
  "ğŸ“– **Educational Boards We Support:**\n\nâœ… **ICSE** - Indian Certificate of Secondary Education\nâœ… **IGCSE** - International General Certificate of Secondary Education  \nâœ… **CBSE** - Central Board of Secondary Education\nâœ… **IB** - International Baccalaureate\nâœ… **A-Level** - Advanced Level qualifications\n\nOur tutors provide **board-specific lessons** aligned with exam patterns and focus on concept-driven teaching for strong foundational understanding."

/-- Fixed response block returned at src/main.py line 285. -/
def tutorResponse : String :=
  "ğŸ‘¨â€ğŸ« **Our Expert Tutors:**\n\nğŸ“ **Qualifications:**\nâ€¢ STEM backgrounds (Engineering, Pharmacy, BSc-MSc)\nâ€¢ Many are JEE/GATE qualified\nâ€¢ Proven teaching experience\n\nğŸ“ **Location:** Within 5km of your location for better continuity\n\nğŸ’¼ **Experience:**\nâ€¢ Home tuitions\nâ€¢ Coaching institutes  \nâ€¢ School teaching\n\nğŸ”„ **Guarantee:** Tutor replacement within 2 weeks if needed\n\nWant to meet our tutors? Book a demo class!"

/-- Fixed response block returned at src/main.py line 305. -/
def contactResponse : String :=
  "ğŸ“ **Get In Touch:**\n\nğŸ“§ **Email:** contact@shyampariedutech.com\nğŸŒ **Website:** https://www.shyampariedutech.com\nğŸ“ **Location:** Pune, Maharashtra\n\nâ° **Coordinator Support:** Available 24/7 to assist you with:\nâ€¢ Demo bookings\nâ€¢ Fee inquiries  \nâ€¢ Tutor assignments\nâ€¢ Schedule management\n\nReady to start your learning journey? Contact us today!"

/-- Fixed response block returned at src/main.py line 321. -/
def timingResponse : String :=
  "â° **Flexible Scheduling:**\n\nğŸ• **Class Timings:** Completely flexible according to your convenience\nğŸ“… **Available:** 7 days a week\nğŸŒ… **Morning, afternoon, or evening** slots available\nâš¡ **Online & Offline** modes for maximum flexibility\n\nğŸ“‹ **Scheduling Process:**\nâ€¢ Discuss preferred timings during coordinator call\nâ€¢ Finalize schedule with your assigned tutor\nâ€¢ 24/7 coordinator support for any changes\n\nWant to discuss your preferred schedule? Contact us for a demo!"

/-- Fixed response block returned at src/main.py line 337. -/
def locationResponse : String :=
  "ğŸ“ **Location & Coverage:**\n\nğŸ¢ **Head Office:** Pune, Maharashtra\nğŸš€ **Service Area:** Pune and surrounding areas\nğŸ“ **Tutor Distance:** Within 5km of your location for offline classes\nğŸŒ **Online Classes:** Available anywhere with internet connection\n\nğŸ  **Home Tuitions:** We come to your location\nğŸ’» **Online Platform:** High-quality virtual classes with interactive tools\n\nBased in Pune? Perfect! We can provide both online and offline services."

/-- Fixed response block returned at src/main.py line 351. -/
def affirmResponse : String :=
  "Absolutely! ğŸ¯ \n\nShyampari Edutech has been providing quality education services since 2017. Here\x27s what makes us reliable:\n\nâœ… **Established Company:** 7+ years of experience\nâœ… **Qualified Tutors:** STEM graduates, JEE/GATE qualified  \nâœ… **Proven Results:** Track record of student success\nâœ… **Professional Support:** 24/7 coordinator assistance\nâœ… **Quality Assurance:** Demo classes and tutor replacement guarantee\n\nWant to experience it yourself? Book a demo class for just â‚¹500!\n\nAny specific concerns you\x27d like me to address?"

/-- Fixed response block returned at src/main.py line 367. -/
def genericResponse : String :=
  "Thank you for your interest in Shyampari Edutech! ğŸ™\n\nFor specific information about:\nâ€¢ **Tutoring services & subjects**\nâ€¢ **Demo class bookings** \nâ€¢ **Detailed fee structure**\nâ€¢ **Tutor assignments**\n\nPlease contact our coordinator:\nğŸ“§ **Email:** contact@shyampariedutech.com\nğŸŒ **Website:** https://www.shyampariedutech.com\n\nOur team is available **24/7** to help you with personalized guidance!\n\nIs there anything specific about our services you\x27d like to know?"

/-- `get_smart_fallback_response` (src/main.py lines 214-381): lowercase the
message, then walk the if/elif keyword cascade in declared order and return
the first matching branch's fixed block, else the generic block. -/
def get_smart_fallback_response (message : String) : String :=
  let message_lower := pyLower message
  if anyKeyword greetingWords message_lower then greetingResponse
  else if anyKeyword servicePhrases message_lower then serviceResponse
  else if anyKeyword demoWords message_lower then demoResponse
  else if anyKeyword feeWords message_lower then feeResponse
  else if anyKeyword boardWords message_lower then boardResponse
  else if anyKeyword tutorWords message_lower then tutorResponse
  else if anyKeyword contactWords message_lower then contactResponse
  else if anyKeyword timingWords message_lower then timingResponse
  else if anyKeyword locationWords message_lower then locationResponse
  else if anyKeyword affirmWords message_lower then affirmResponse
  else genericResponse

/-- The declared, ordered keyword-group table of the fallback cascade
(src/main.py lines 219-363, in source order): each entry pairs a branch's
keyword list with its fixed response block. -/
def responseGroups : List (List String × String) :=
  [(greetingWords, greetingResponse),
   (servicePhrases, serviceResponse),
   (demoWords, demoResponse),
   (feeWords, feeResponse),
   (boardWords, boardResponse),
   (tutorWords, tutorResponse),
   (contactWords, contactResponse),
   (timingWords, timingResponse),
   (locationWords, locationResponse),
   (affirmWords, affirmResponse)]

/-- First-match dispatch over the declared ordered table: the response of
the FIRST group (in `responseGroups` order) with a keyword contained in
the lowercased message, else the generic block (spec 4.3 and 9). -/
def firstMatchingResponse (message : String) : String :=
  match responseGroups.find? (fun g => anyKeyword g.1 (pyLower message)) with
  | some g => g.2
  | none => genericResponse

/-- The closed set of texts the fallback responder can produce: the ten
group blocks and the generic block. -/
def allResponses : List String :=
  [greetingResponse, serviceResponse, demoResponse, feeResponse,
   boardResponse, tutorResponse, contactResponse, timingResponse,
   locationResponse, affirmResponse, genericResponse]

/-- Python truthiness of an optional string (`if GROK_API_KEY:` at
src/main.py line 38, `if not GROK_API_KEY:` at line 157, and the
`grok_available and GROK_API_KEY` guard at line 394): truthy exactly when
present and non-empty. -/
def pyTruthyStr : Option String → Bool
  | none => false
  | some s => s ≠ ""

/-- `initialize_grok` (src/main.py lines 36-47): the startup flag
`grok_available` is set from the truthiness of the configured credential. -/
def initialize_grok (key : Option String) : Bool :=
  pyTruthyStr key

/-- Outcome of the single outbound HTTP call made by the remote completion
client (src/main.py lines 186-212): an HTTP response carrying a status code
and the list of completion-choice texts, a timeout, or any other raised
error (network failure, unexpected payload shape). -/
inductive RemoteOutcome where
  | httpResponse (status : Nat) (choices : List String)
  | timeout
  | exn
deriving DecidableEq

/-- `get_grok_response` (src/main.py lines 155-212): without a truthy
credential return no value; on HTTP 200 with a non-empty choice list return
the first choice's text stripped; on any other outcome (non-200 status,
empty choice list, timeout, raised error) return no value. -/
def get_grok_response (key : Option String) (outcome : RemoteOutcome) : Option String :=
  if pyTruthyStr key = false then
    none
  else
    match outcome with
    | RemoteOutcome.httpResponse status choices =>
        if status = 200 then
          match choices with
          | [] => none
          | c :: _ => some (pyStrip c)
        else none
    | RemoteOutcome.timeout => none
    | RemoteOutcome.exn => none

/-- The response envelope `ChatResponse` (src/main.py lines 52-55). -/
structure ChatResponse where
  response : String
  timestamp : String
  using_ai : Bool
deriving DecidableEq

/-- An HTTP error signalled to the caller, as fastapi's `HTTPException`
carrying a status code and a detail string. -/
structure HTTPErrorSignal where
  status_code : Nat
  detail : String
deriving DecidableEq

/-- Modelled from the spec: a wall-clock instant as produced by Python's
`datetime.now()` (src/main.py lines 399 and 409); the clock itself is
outside the repository, so the handler is parameterised by the instant. -/
structure DateTime where
  year : Nat
  month : Nat
  day : Nat
  hour : Nat
  minute : Nat
  second : Nat
  microsecond : Nat
deriving DecidableEq

/-- The decimal digit character of `n mod 10`. -/
def digit (n : Nat) : Char :=
  Nat.digitChar (n % 10)

/-- Two-digit zero-padded decimal rendering (`n < 100` in every use). -/
def pad2chars (n : Nat) : List Char :=
  [digit (n / 10), digit n]

/-- Four-digit zero-padded decimal rendering (`n < 10000` in every use). -/
def pad4chars (n : Nat) : List Char :=
  [digit (n / 1000), digit (n / 100), digit (n / 10), digit n]

/-- Six-digit zero-padded decimal rendering (`n < 1000000` in every use). -/
def pad6chars (n : Nat) : List Char :=
  [digit (n / 100000), digit (n / 10000), digit (n / 1000),
   digit (n / 100), digit (n / 10), digit n]

/-- Modelled from the spec: Python's `datetime.isoformat()` (called at
src/main.py lines 399 and 409, the library routine is outside the
repository) renders `YYYY-MM-DDTHH:MM:SS`, with `.ffffff` appended when
the microsecond field is non-zero. -/
def isoformat (dt : DateTime) : String :=
  String.mk
    (pad4chars dt.year ++ '-' :: pad2chars dt.month ++ '-' :: pad2chars dt.day ++
     'T' :: pad2chars dt.hour ++ ':' :: pad2chars dt.minute ++ ':' :: pad2chars dt.second ++
     (if dt.microsecond = 0 then [] else '.' :: pad6chars dt.microsecond))

/-- Every character of the list is a decimal digit. -/
def allDigits (l : List Char) : Bool :=
  l.all Char.isDigit

/-- Well-formedness of an ISO-8601 local instant: `YYYY-MM-DDTHH:MM:SS`
with an optional 6-digit fractional-second part. -/
def isISO8601 (s : String) : Bool :=
  match s.toList with
  | [y1, y2, y3, y4, '-', m1, m2, '-', d1, d2, 'T',
     h1, h2, ':', n1, n2, ':', s1, s2] =>
      allDigits [y1, y2, y3, y4, m1, m2, d1, d2, h1, h2, n1, n2, s1, s2]
  | [y1, y2, y3, y4, '-', m1, m2, '-', d1, d2, 'T',
     h1, h2, ':', n1, n2, ':', s1, s2, '.', f1, f2, f3, f4, f5, f6] =>
      allDigits [y1, y2, y3, y4, m1, m2, d1, d2, h1, h2, n1, n2, s1, s2,
                 f1, f2, f3, f4, f5, f6]
  | _ => false

/-- The body of the `try` block of `chat_endpoint` (src/main.py lines
385-411): strip the message; raise a 400 error when empty; when the
startup flag and the credential are both truthy attempt the remote call;
a truthy (present, non-empty) completion is returned with `using_ai = true`;
otherwise the fallback responder's text with `using_ai = false`. -/
def chat_try (grok_available : Bool) (key : Option String) (outcome : RemoteOutcome)
    (now : DateTime) (message : String) : Except HTTPErrorSignal ChatResponse :=
  let user_message := pyStrip message
  if user_message = "" then
    Except.error ⟨400, "Message cannot be empty"⟩
  else
    let ai_response : Option String :=
      if grok_available && pyTruthyStr key then get_grok_response key outcome else none
    match ai_response with
    | some r =>
        if r = "" then
          Except.ok ⟨get_smart_fallback_response user_message, isoformat now, false⟩
        else
          Except.ok ⟨r, isoformat now, true⟩
    | none => Except.ok ⟨get_smart_fallback_response user_message, isoformat now, false⟩

/-- `chat_endpoint` (src/main.py lines 383-416): the whole body runs inside
`try ... except Exception`, and the except clause replaces ANY raised
exception — including the `HTTPException(400)` raised for an empty message,
which is an `Exception` subclass — with `HTTPException(500, "Internal
server error")`. -/
def chat_endpoint (key : Option String) (grok_available : Bool) (outcome : RemoteOutcome)
    (now : DateTime) (message : String) : Except HTTPErrorSignal ChatResponse :=
  match chat_try grok_available key outcome now message with
  | Except.ok r => Except.ok r
  | Except.error _ => Except.error ⟨500, "Internal server error"⟩

/-- A fixed sample instant used by concrete witnesses. -/
def dt0 : DateTime :=
  ⟨2026, 10, 12, 9, 30, 5, 0⟩

end Edubot

namespace Edubot

/-- Concatenated keyword lists of every branch checked before the contact
branch (src/main.py lines 219-301). -/
def wordsBeforeContact : List String :=
  greetingWords ++ servicePhrases ++ demoWords ++ feeWords ++ boardWords ++ tutorWords

/-- Failure outcomes of the remote completion attempt as enumerated by the
design (spec 4.2): missing/empty credential, timeout, any raised error,
non-200 status, or an empty choice list. -/
def isRemoteFailure (key : Option String) (outcome : RemoteOutcome) : Bool :=
  !pyTruthyStr key ||
    (match outcome with
     | RemoteOutcome.timeout => true
     | RemoteOutcome.exn => true
     | RemoteOutcome.httpResponse status choices => status ≠ 200 || choices.isEmpty)

theorem anyKeyword_true (ws : List String) (m w : String)
    (hw : w ∈ ws) (h : containsSub w m = true) : anyKeyword ws m = true :=
  List.any_eq_true.mpr ⟨w, hw, h⟩

theorem anyKeyword_false (ws : List String) (m : String)
    (h : ∀ w ∈ ws, containsSub w m = false) : anyKeyword ws m = false := by
  simp only [anyKeyword, List.any_eq_false]
  intro w hw
  simp [h w hw]

theorem fallback_mem_allResponses (m : String) :
    get_smart_fallback_response m ∈ allResponses := by
  unfold get_smart_fallback_response
  dsimp only []
  split_ifs
  all_goals simp [allResponses]

theorem fallback_ne_empty (m : String) : get_smart_fallback_response m ≠ "" := by
  unfold get_smart_fallback_response
  dsimp only []
  split_ifs
  all_goals decide

theorem fallback_eq_first (m : String) :
    get_smart_fallback_response m = firstMatchingResponse m := by
  unfold get_smart_fallback_response firstMatchingResponse responseGroups
  cases h1 : anyKeyword greetingWords (pyLower m)
  case true => simp [List.find?, h1]
  case false =>
  cases h2 : anyKeyword servicePhrases (pyLower m)
  case true => simp [List.find?, h1, h2]
  case false =>
  cases h3 : anyKeyword demoWords (pyLower m)
  case true => simp [List.find?, h1, h2, h3]
  case false =>
  cases h4 : anyKeyword feeWords (pyLower m)
  case true => simp [List.find?, h1, h2, h3, h4]
  case false =>
  cases h5 : anyKeyword boardWords (pyLower m)
  case true => simp [List.find?, h1, h2, h3, h4, h5]
  case false =>
  cases h6 : anyKeyword tutorWords (pyLower m)
  case true => simp [List.find?, h1, h2, h3, h4, h5, h6]
  case false =>
  cases h7 : anyKeyword contactWords (pyLower m)
  case true => simp [List.find?, h1, h2, h3, h4, h5, h6, h7]
  case false =>
  cases h8 : anyKeyword timingWords (pyLower m)
  case true => simp [List.find?, h1, h2, h3, h4, h5, h6, h7, h8]
  case false =>
  cases h9 : anyKeyword locationWords (pyLower m)
  case true => simp [List.find?, h1, h2, h3, h4, h5, h6, h7, h8, h9]
  case false =>
  cases h10 : anyKeyword affirmWords (pyLower m)
  case true => simp [List.find?, h1, h2, h3, h4, h5, h6, h7, h8, h9, h10]
  case false => simp [List.find?, h1, h2, h3, h4, h5, h6, h7, h8, h9, h10]

theorem fallback_of_greeting (m w : String) (hw : w ∈ greetingWords)
    (h : containsSub w (pyLower m) = true) :
    get_smart_fallback_response m = greetingResponse := by
  unfold get_smart_fallback_response
  simp [anyKeyword_true greetingWords (pyLower m) w hw h]

/-- C4: a message with keywords from two different groups resolves to the
group listed earlier in the fixed declared order: the fallback responder
equals first-match dispatch over the declared ordered group table, and in
particular any message containing both "hello" and "fee" resolves to the
greeting group. -/
theorem C4_keyword_group_precedence :
    (∀ m : String, get_smart_fallback_response m = firstMatchingResponse m) ∧
    (∀ m : String, containsSub "hello" (pyLower m) = true →
      containsSub "fee" (pyLower m) = true →
      get_smart_fallback_response m = greetingResponse) := by
  refine ⟨fallback_eq_first, ?_⟩
  intro m h1 _
  exact fallback_of_greeting m "hello" (by decide) h1

theorem C4_keyword_group_precedence_witness :
    get_smart_fallback_response "hello, what is the fee" = greetingResponse ∧
    get_smart_fallback_response "hello, what is the fee"
      = firstMatchingResponse "hello, what is the fee" :=
  ⟨C4_keyword_group_precedence.2 "hello, what is the fee" (by decide) (by decide),
   C4_keyword_group_precedence.1 "hello, what is the fee"⟩

/-- C7: the fallback responder is total, pure and deterministic: every
input yields one of the eleven fixed blocks (hence some string, never a
failure and never empty), and identical inputs yield identical outputs. -/
theorem C7_fallback_total_deterministic :
    (∀ m : String, get_smart_fallback_response m ∈ allResponses) ∧
    (∀ m : String, get_smart_fallback_response m ≠ "") ∧
    (∀ m₁ m₂ : String, m₁ = m₂ →
      get_smart_fallback_response m₁ = get_smart_fallback_response m₂) :=
  ⟨fallback_mem_allResponses, fallback_ne_empty,
   fun _ _ h => congrArg get_smart_fallback_response h⟩

theorem C7_fallback_total_deterministic_witness :
    get_smart_fallback_response "hi" ∈ allResponses ∧
    get_smart_fallback_response "hi" ≠ "" ∧
    get_smart_fallback_response "hi" = get_smart_fallback_response "hi" :=
  ⟨C7_fallback_total_deterministic.1 "hi",
   C7_fallback_total_deterministic.2.1 "hi",
   C7_fallback_total_deterministic.2.2 "hi" "hi" rfl⟩

/-- C8: "location" is a keyword of both the contact group and the location
group; since contact is checked first, any message containing "location"
and no keyword of an earlier group gets the contact block, not the
location block. -/
theorem C8_location_resolves_to_contact (m : String)
    (hloc : containsSub "location" (pyLower m) = true)
    (hearlier : ∀ w ∈ wordsBeforeContact, containsSub w (pyLower m) = false) :
    get_smart_fallback_response m = contactResponse ∧
    get_smart_fallback_response m ≠ locationResponse := by
  have hsplit : ∀ ws : List String, (∀ w ∈ ws, w ∈ wordsBeforeContact) →
      anyKeyword ws (pyLower m) = false := by
    intro ws hws
    exact anyKeyword_false ws (pyLower m) (fun w hw => hearlier w (hws w hw))
  have h1 : anyKeyword greetingWords (pyLower m) = false := by
    refine hsplit _ (fun w hw => ?_); simp [wordsBeforeContact, hw]
  have h2 : anyKeyword servicePhrases (pyLower m) = false := by
    refine hsplit _ (fun w hw => ?_); simp [wordsBeforeContact, hw]
  have h3 : anyKeyword demoWords (pyLower m) = false := by
    refine hsplit _ (fun w hw => ?_); simp [wordsBeforeContact, hw]
  have h4 : anyKeyword feeWords (pyLower m) = false := by
    refine hsplit _ (fun w hw => ?_); simp [wordsBeforeContact, hw]
  have h5 : anyKeyword boardWords (pyLower m) = false := by
    refine hsplit _ (fun w hw => ?_); simp [wordsBeforeContact, hw]
  have h6 : anyKeyword tutorWords (pyLower m) = false := by
    refine hsplit _ (fun w hw => ?_); simp [wordsBeforeContact, hw]
  have h7 : anyKeyword contactWords (pyLower m) = true :=
    anyKeyword_true contactWords (pyLower m) "location" (by decide) hloc
  have hres : get_smart_fallback_response m = contactResponse := by
    unfold get_smart_fallback_response
    simp [h1, h2, h3, h4, h5, h6, h7]
  refine ⟨hres, ?_⟩
  rw [hres]
  decide

theorem C8_location_resolves_to_contact_witness :
    get_smart_fallback_response "location" = contactResponse ∧
    get_smart_fallback_response "location" ≠ locationResponse :=
  C8_location_resolves_to_contact "location" (by decide) (by decide)

/-- C9: keyword matching is raw substring containment on the lowercased
message, not word-boundary matching: any message containing the letter
sequence "hi" selects the greeting group, and in particular "which board
do you support" gets the greeting block rather than the board block. -/
theorem C9_substring_not_word_boundary :
    (∀ m : String, containsSub "hi" (pyLower m) = true →
      get_smart_fallback_response m = greetingResponse) ∧
    containsSub "board" (pyLower "which board do you support") = true ∧
    get_smart_fallback_response "which board do you support" = greetingResponse ∧
    greetingResponse ≠ boardResponse := by
  refine ⟨fun m h => fallback_of_greeting m "hi" (by decide) h, by decide, by decide, by decide⟩

theorem C9_substring_not_word_boundary_witness :
    get_smart_fallback_response "think about it" = greetingResponse :=
  C9_substring_not_word_boundary.1 "think about it" (by decide)

end Edubot

namespace Edubot

theorem digitChar_isDigit : ∀ k < 10, (Nat.digitChar k).isDigit = true := by decide

theorem digit_isDigit (n : Nat) : (digit n).isDigit = true := by
  unfold digit
  exact digitChar_isDigit (n % 10) (Nat.mod_lt n (by omega))

theorem isoformat_wellformed (dt : DateTime) : isISO8601 (isoformat dt) = true := by
  unfold isISO8601 isoformat pad4chars pad2chars pad6chars
  by_cases h : dt.microsecond = 0 <;>
    simp [h, allDigits, digit_isDigit]

/-- C1: on an empty or whitespace-only message the handler body does raise
the 400 client error with its detail, but the surrounding blanket
`except Exception` of `chat_endpoint` catches that very exception and
re-raises it as a generic 500, so the caller observes HTTP 500, not 400;
no successful response body is produced either way. -/
theorem C1_empty_message_becomes_500 (key : Option String) (g : Bool)
    (o : RemoteOutcome) (t : DateTime) (m : String) (h : pyStrip m = "") :
    chat_try g key o t m = Except.error ⟨400, "Message cannot be empty"⟩ ∧
    chat_endpoint key g o t m = Except.error ⟨500, "Internal server error"⟩ := by
  constructor
  · unfold chat_try
    simp [h]
  · unfold chat_endpoint chat_try
    simp [h]

theorem C1_empty_message_becomes_500_witness :
    chat_try false none RemoteOutcome.timeout dt0 "   "
      = Except.error ⟨400, "Message cannot be empty"⟩ ∧
    chat_endpoint none false RemoteOutcome.timeout dt0 "   "
      = Except.error ⟨500, "Internal server error"⟩ :=
  C1_empty_message_becomes_500 none false RemoteOutcome.timeout dt0 "   " (by decide)

/-- C2: the claim is false on the code: "What is the demo fee?" contains
"demo", the demo/trial branch is checked before the fee branch, and so the
handler returns the demo-group block, not the fee-group block. -/
theorem C2_demo_fee_counterexample :
    chat_endpoint none (initialize_grok none) RemoteOutcome.timeout dt0 "What is the demo fee?"
      = Except.ok ⟨demoResponse, isoformat dt0, false⟩ ∧
    demoResponse ≠ feeResponse := by
  constructor
  · rfl
  · decide

/-- C2 (amended): for the input "What is the demo fee?" with no credential
configured, the response text is the demo/trial group's fixed block (which
also quotes the ₹500 negotiable demo fee), and using_ai is false. -/
theorem C2_demo_fee_routes_to_demo_block (o : RemoteOutcome) (t : DateTime) :
    chat_endpoint none (initialize_grok none) o t "What is the demo fee?"
      = Except.ok ⟨demoResponse, isoformat t, false⟩ := by
  have hne : pyStrip "What is the demo fee?" ≠ "" := by decide
  have hf : get_smart_fallback_response (pyStrip "What is the demo fee?") = demoResponse := by
    decide
  unfold chat_endpoint chat_try
  simp [hne, initialize_grok, pyTruthyStr, hf]

/-- C3: every failure outcome of the remote attempt (missing or empty
credential, timeout, raised error, non-200 status, empty choice list)
makes the remote client return no value rather than raise, and the handler
then answers with the fallback responder's text and using_ai false — the
same observable shape as the no-credential case, never an error to the
HTTP layer. -/
theorem C3_remote_failure_never_errors (key : Option String) (o : RemoteOutcome)
    (hfail : isRemoteFailure key o = true) :
    get_grok_response key o = none ∧
    ∀ (t : DateTime) (m : String), pyStrip m ≠ "" →
      chat_endpoint key (initialize_grok key) o t m
        = Except.ok ⟨get_smart_fallback_response (pyStrip m), isoformat t, false⟩ := by
  have hg : get_grok_response key o = none := by
    unfold get_grok_response
    cases hk : pyTruthyStr key
    · simp [hk]
    · rw [if_neg (by decide : ¬(true = false))]
      unfold isRemoteFailure at hfail
      rw [hk] at hfail
      cases o with
      | timeout => simp
      | exn => simp
      | httpResponse s cs =>
          simp at hfail
          rcases hfail with hs | hc
          · simp [hs]
          · cases cs with
            | nil => by_cases hs2 : s = 200 <;> simp [hs2]
            | cons a l => simp at hc
  refine ⟨hg, ?_⟩
  intro t m hm
  unfold chat_endpoint chat_try
  cases hcond : initialize_grok key && pyTruthyStr key <;> simp [hm, hcond, hg]

theorem C3_remote_failure_never_errors_witness :
    get_grok_response (some "k") (RemoteOutcome.httpResponse 500 ["boom"]) = none ∧
    chat_endpoint (some "k") (initialize_grok (some "k"))
        (RemoteOutcome.httpResponse 500 ["boom"]) dt0 "hello"
      = Except.ok ⟨get_smart_fallback_response (pyStrip "hello"), isoformat dt0, false⟩ :=
  ⟨(C3_remote_failure_never_errors (some "k")
      (RemoteOutcome.httpResponse 500 ["boom"]) (by decide)).1,
   (C3_remote_failure_never_errors (some "k")
      (RemoteOutcome.httpResponse 500 ["boom"]) (by decide)).2 dt0 "hello" (by decide)⟩

/-- C5: with the remote credential absent, every handled request gets
using_ai false and exactly the fallback responder's text for the stripped
message. -/
theorem C5_no_credential_fallback (o : RemoteOutcome) (t : DateTime) (m : String)
    (h : pyStrip m ≠ "") :
    chat_endpoint none (initialize_grok none) o t m
      = Except.ok ⟨get_smart_fallback_response (pyStrip m), isoformat t, false⟩ := by
  unfold chat_endpoint chat_try
  simp [h, initialize_grok, pyTruthyStr]

theorem C5_no_credential_fallback_witness :
    chat_endpoint none (initialize_grok none) RemoteOutcome.timeout dt0 "hello"
      = Except.ok ⟨get_smart_fallback_response (pyStrip "hello"), isoformat dt0, false⟩ :=
  C5_no_credential_fallback RemoteOutcome.timeout dt0 "hello" (by decide)

/-- C6: every input that is non-empty after stripping yields a successful
response whose text is non-empty and whose timestamp is a well-formed
ISO-8601 instant. -/
theorem C6_nonempty_input_ok (key : Option String) (o : RemoteOutcome) (t : DateTime)
    (m : String) (h : pyStrip m ≠ "") :
    ∃ r : ChatResponse, chat_endpoint key (initialize_grok key) o t m = Except.ok r ∧
      r.response ≠ "" ∧ isISO8601 r.timestamp = true := by
  unfold chat_endpoint chat_try
  dsimp only []
  rw [if_neg h]
  cases hai : (if initialize_grok key && pyTruthyStr key then get_grok_response key o else none) with
  | none =>
      exact ⟨⟨get_smart_fallback_response (pyStrip m), isoformat t, false⟩, by simp [hai],
        fallback_ne_empty _, isoformat_wellformed t⟩
  | some r =>
      by_cases hr : r = ""
      · exact ⟨⟨get_smart_fallback_response (pyStrip m), isoformat t, false⟩,
          by simp [hai, hr], fallback_ne_empty _, isoformat_wellformed t⟩
      · exact ⟨⟨r, isoformat t, true⟩, by simp [hai, hr], hr, isoformat_wellformed t⟩

theorem C6_nonempty_input_ok_witness :
    ∃ r : ChatResponse,
      chat_endpoint none (initialize_grok none) RemoteOutcome.timeout dt0 "hello"
        = Except.ok r ∧ r.response ≠ "" ∧ isISO8601 r.timestamp = true :=
  C6_nonempty_input_ok none RemoteOutcome.timeout dt0 "hello" (by decide)

/-- C10: an HTTP 200 whose first completion choice strips to the empty
string makes the remote client hand back the empty text, which the
handler's truthiness test treats exactly like absence of a value: the
caller gets the fallback responder's text with using_ai false, never an
empty response body. -/
theorem C10_empty_completion_falls_back (k c : String) (cs : List String)
    (t : DateTime) (m : String) (hk : k ≠ "") (hc : pyStrip c = "")
    (hm : pyStrip m ≠ "") :
    get_grok_response (some k) (RemoteOutcome.httpResponse 200 (c :: cs)) = some "" ∧
    chat_endpoint (some k) (initialize_grok (some k))
        (RemoteOutcome.httpResponse 200 (c :: cs)) t m
      = Except.ok ⟨get_smart_fallback_response (pyStrip m), isoformat t, false⟩ := by
  have htruthy : pyTruthyStr (some k) = true := by simp [pyTruthyStr, hk]
  have hg : get_grok_response (some k) (RemoteOutcome.httpResponse 200 (c :: cs)) = some "" := by
    unfold get_grok_response
    simp [htruthy, hc]
  refine ⟨hg, ?_⟩
  unfold chat_endpoint chat_try
  simp [hm, initialize_grok, htruthy, hg]

theorem C10_empty_completion_falls_back_witness :
    get_grok_response (some "k") (RemoteOutcome.httpResponse 200 ["  "]) = some "" ∧
    chat_endpoint (some "k") (initialize_grok (some "k"))
        (RemoteOutcome.httpResponse 200 ["  "]) dt0 "hello"
      = Except.ok ⟨get_smart_fallback_response (pyStrip "hello"), isoformat dt0, false⟩ :=
  C10_empty_completion_falls_back "k" "  " [] dt0 "hello"
    (by decide) (by decide) (by decide)

end Edubot
